import Mathlib

/-!
Shallow embedding of `bibtex_check.py` (BibTeX-Check, single-file Python
script).  Pure string manipulation primitives of Python are modelled over
`List Char`; the global mutable state of the script becomes an explicit
`CheckState` record threaded through a per-line step function, and the two
run-aborting failures of the script (the `NameError` raised by the
uninitialised `counterDocumentLinkErrors` in the doi branch, and the
`IndexError` raised on a boundary line without an opening brace when the
script indexes the second split group) become `Except` errors.
-/

namespace BibtexCheck

/-- Characters treated as whitespace by the Python method `str.strip()`. -/
def wsChars : List Char := [' ', '\t', '\n', '\r', '\x0b', '\x0c']

/-- Python `s.lstrip(chars)`: drop the given characters from the front. -/
def pyLstripL (chars : List Char) (l : List Char) : List Char :=
  l.dropWhile (fun c => chars.contains c)

/-- Python `s.rstrip(chars)`: drop the given characters from the back. -/
def pyRstripL (chars : List Char) (l : List Char) : List Char :=
  (l.reverse.dropWhile (fun c => chars.contains c)).reverse

/-- Python `s.strip(chars)`: drop the given characters from both ends. -/
def pyStripL (chars : List Char) (l : List Char) : List Char :=
  pyRstripL chars (pyLstripL chars l)

/-- Python `s.strip(chars)` on `String`. -/
def pyStrip (chars : List Char) (s : String) : String :=
  String.mk (pyStripL chars s.toList)

/-- Python `s.rstrip(chars)` on `String`. -/
def pyRstrip (chars : List Char) (s : String) : String :=
  String.mk (pyRstripL chars s.toList)

/-- Python `s.strip()` (whitespace) on `String`. -/
def pyStripWs (s : String) : String :=
  String.mk (pyStripL wsChars s.toList)

/-- Python `str.lower()` restricted to ASCII letters.  The script applies
`.lower()` to identifiers, entry types and field names; on the ASCII range
this is exact (non-ASCII letters are left unchanged by this model). -/
def pyLowerChar (c : Char) : Char :=
  if 65 ≤ c.toNat ∧ c.toNat ≤ 90 then Char.ofNat (c.toNat + 32) else c

/-- Python `str.lower()` on a string (ASCII model, see `pyLowerChar`). -/
def pyLower (s : String) : String :=
  String.mk (s.toList.map pyLowerChar)

/-- Left-to-right scan splitting a character list on a non-empty separator,
keeping empty groups, exactly like Python `str.split(sep)`.  The `fuel`
argument only makes the recursion structural; it is called with the length
of the list, which always suffices since every step consumes at least one
character. -/
def splitGo (sep : List Char) : Nat → List Char → List (List Char)
  | _, [] => [[]]
  | 0, l => [l]
  | fuel + 1, c :: cs =>
    if sep.isPrefixOf (c :: cs) then
      [] :: splitGo sep fuel (cs.drop (sep.length - 1))
    else
      match splitGo sep fuel cs with
      | [] => [[c]]
      | g :: gs => (c :: g) :: gs

/-- Python `s.split(sep)` for a non-empty literal separator. -/
def pySplit (sep : String) (s : String) : List String :=
  match sep.toList with
  | [] => [s]
  | sl => (splitGo sl s.toList.length s.toList).map String.mk

/-- Sublist occurrence test over `List Char`: `needle` occurs contiguously
inside the list (Python `needle in hay` for strings). -/
def subListIn (n : List Char) : List Char → Bool
  | [] => n.isEmpty
  | c :: cs => n.isPrefixOf (c :: cs) || subListIn n cs

/-- Python `needle in hay` for strings. -/
def strIn (needle hay : String) : Bool :=
  subListIn needle.toList hay.toList

/-- Python `s.startswith(p)`. -/
def pyStartsWith (p s : String) : Bool :=
  p.toList.isPrefixOf s.toList

/-- Python `s.count(ch)` for a single character. -/
def countChar (ch : Char) (s : String) : Nat :=
  s.toList.count ch

/-- Python `s.replace(str(ch), "")`: remove every occurrence of a character. -/
def removeChar (ch : Char) (s : String) : String :=
  String.mk (s.toList.filter (fun c => c ≠ ch))

/-- Python `s.replace(str(ch), rep)` for a one-character pattern: substitute
every occurrence of `ch` by the replacement string. -/
def replaceChar (ch : Char) (rep : String) (s : String) : String :=
  String.mk (s.toList.flatMap (fun c => if c = ch then rep.toList else [c]))

/-- Check that no two underscores in the list are adjacent. -/
def noDoubleUnderscore : List Char → Bool
  | '_' :: '_' :: _ => false
  | _ :: cs => noDoubleUnderscore cs
  | [] => true

/-- Value of a list of ASCII digits (underscores already removed). -/
def digitsVal (l : List Char) : Nat :=
  l.foldl (fun acc c => acc * 10 + (c.toNat - 48)) 0

/-- Parse an unsigned digit group the way CPython `int(str)` does: non-empty,
first and last characters are digits, only digits and single interior
underscores. -/
def parseDigits (l : List Char) : Option Nat :=
  match l with
  | [] => none
  | c :: _ =>
    if c.isDigit ∧ (l.getLast? = some '_' → False) ∧
        (∀ d ∈ l, d.isDigit ∨ d = '_') ∧ noDoubleUnderscore l = true then
      some (digitsVal (l.filter (fun d => d ≠ '_')))
    else none

/-- Model of CPython `int(value)` on ASCII input: surrounding whitespace is
ignored, an optional sign precedes a digit group with optional single
interior underscores; anything else raises `ValueError` (here: `none`). -/
def pyInt (s : String) : Option Int :=
  match pyStripL wsChars s.toList with
  | '+' :: rest => (parseDigits rest).map Int.ofNat
  | '-' :: rest => (parseDigits rest).map (fun n => -(Int.ofNat n))
  | rest => (parseDigits rest).map Int.ofNat

/-- The characters of Python `string.punctuation`. -/
def punctuationChars : List Char :=
  ("!\"#$%&\x27()*+,-./:;<=>?@[\\]^_`\x7b|\x7d~").toList

/-- Model of `str.translate(removePunctuationMap)` from the script: delete
every ASCII punctuation character. -/
def pyRemovePunct (s : String) : String :=
  String.mk (s.toList.filter (fun c => ¬ punctuationChars.contains c))

/-- Does the string contain an ASCII uppercase letter? -/
def hasUpperStr (s : String) : Bool :=
  s.toList.any (fun c => 65 ≤ c.toNat && c.toNat ≤ 90)

/-- Model of the `unidecode` library (external dependency of the script) on
one character: ASCII characters are kept, the non-ASCII code points relevant
to this development are transliterated to their closest ASCII digraphs, and
any other code point is dropped (as `unidecode` does for unmapped points). -/
def unidecodeChar (c : Char) : List Char :=
  if c.toNat < 128 then [c]
  else if c = 'Å' then ['A']
  else if c = 'å' then ['a']
  else if c = 'Ä' then ['A']
  else if c = 'Ö' then ['O']
  else if c = 'Ü' then ['U']
  else if c = 'ä' then ['a']
  else if c = 'ö' then ['o']
  else if c = 'ü' then ['u']
  else if c = 'é' then ['e']
  else if c = 'è' then ['e']
  else if c = 'ß' then ['s', 's']
  else if c = 'ñ' then ['n']
  else []

/-- Model of `unidecode` on a string. -/
def unidecodeStr (s : String) : String :=
  String.mk (s.toList.flatMap unidecodeChar)

/-- The three literal umlaut substitutions of line 239 of the script, applied
in source order: `ä → ae`, then `ö → oe`, then `ü → ue`. -/
def substUmlauts (s : String) : String :=
  replaceChar ('ü') ("ue") (replaceChar ('ö') ("oe") (replaceChar ('ä') ("ae") s))

/-- Surname normalisation of lines 239–240 of the script: umlaut digraphs,
then `unidecode`, then `.lower()`, then removal of every space, period and
apostrophe. -/
def normalizeSurname (s : String) : String :=
  removeChar ('.')
    (removeChar (Char.ofNat 39) (removeChar (' ') (pyLower (unidecodeStr (substUmlauts s)))))

/-- The four counted problem categories, plus the uncounted advisory used by
the `pages` rule. -/
inductive Cat where
  | missingField
  | flawedName
  | wrongType
  | nonUniqueId
  | advisory
deriving DecidableEq, Repr

/-- One validation finding: the message string pushed into `subproblems`,
tagged with the counter the adjacent `counter... += 1` statement increments
(`advisory` when no counter is touched, as in the `pages` rule). -/
structure Problem where
  cat : Cat
  msg : String
deriving DecidableEq, Repr

/-- One finalized record of the report: everything lines 170–194 of the
script interpolate into the HTML block appended to `problems`. -/
structure ProblemEntry where
  id : String
  typ : String
  title : String
  articleId : String
  completeEntry : String
  subs : List Problem
deriving DecidableEq, Repr

/-- A value of the `requiredFields` dictionary: either an alias naming
another type (a bare string in the script) or a list of field specs. -/
inductive SchemaVal where
  | alias (t : String)
  | fieldSpecs (fs : List String)
deriving DecidableEq, Repr

/-- Dictionary lookup in the schema. -/
def schemaLookup (schema : List (String × SchemaVal)) (t : String) : Option SchemaVal :=
  (schema.find? (fun p => p.fst = t)).map Prod.snd

/-- The built-in `requiredFields` dictionary (lines 33–52 of the script). -/
def defaultRequiredFields : List (String × SchemaVal) := [
  (("article"), .fieldSpecs [("author"), ("title"), ("journal"), ("year"), ("volume")]),
  (("book"), .fieldSpecs [("author/editor"), ("title"), ("publisher"), ("year")]),
  (("booklet"), .fieldSpecs [("author/editor"), ("title"), ("year"), ("howpublished")]),
  (("conference"), .alias ("inproceedings")),
  (("inbook"), .fieldSpecs [("author/editor"), ("title"), ("chapter/pages"), ("publisher"), ("year")]),
  (("incollection"), .fieldSpecs [("author"), ("title"), ("booktitle"), ("publisher"), ("year")]),
  (("inproceedings"), .fieldSpecs [("author"), ("title"), ("booktitle"), ("year")]),
  (("manual"), .fieldSpecs [("title"), ("year")]),
  (("mastersthesis"), .fieldSpecs [("author"), ("title"), ("school"), ("year")]),
  (("misc"), .fieldSpecs [("author/organization"), ("title"), ("year")]),
  (("phdthesis"), .fieldSpecs [("author"), ("title"), ("school"), ("year")]),
  (("proceedings"), .fieldSpecs [("title"), ("year")]),
  (("techreport"), .fieldSpecs [("author"), ("title"), ("institution"), ("year")]),
  (("unpublished"), .fieldSpecs [("author"), ("title"), ("note"), ("year")]),
  (("electronic"), .fieldSpecs [("author/organization"), ("title"), ("url"), ("year")]),
  (("standard"), .fieldSpecs [("title"), ("organization/institution")]),
  (("patent"), .fieldSpecs [("nationality"), ("number"), ("year/yearfiled")])]

/-- Result of the alias-resolution `while` loop of lines 145–146. -/
inductive ResolveResult where
  | found (t : String) (fs : List String)
  | keyError
  | outOfFuel
deriving DecidableEq, Repr

/-- The alias-resolution loop of lines 145–146 of the script, with a fuel
bound standing in for the unbounded `while` of the source: `outOfFuel` models a
resolution that has not terminated within `fuel` lookups. -/
def resolveAux (schema : List (String × SchemaVal)) : Nat → String → ResolveResult
  | 0, _ => .outOfFuel
  | fuel + 1, t =>
    match schemaLookup schema t with
    | none => .keyError
    | some (.alias t2) => resolveAux schema fuel t2
    | some (.fieldSpecs fs) => .found t fs

/-- Ways the script dies with an uncaught exception while processing lines. -/
inductive RunError where
  | nameErrorDoi
  | indexError
  | keyError
  | aliasFuelExhausted
deriving DecidableEq, Repr

/-- The global mutable state of the main loop of the script (lines 119–132). -/
structure CheckState where
  completeEntry : String
  currentId : String
  citations : List String
  currentType : String
  currentArticleId : String
  currentTitle : String
  fields : List String
  problems : List ProblemEntry
  subproblems : List Problem
  counterMissingFields : Nat
  counterFlawedNames : Nat
  counterWrongTypes : Nat
  counterNonUniqueId : Nat
  lineNo : Nat
deriving DecidableEq, Repr

/-- The initial values of the globals of the script. -/
def initState : CheckState :=
  { completeEntry := "", currentId := "", citations := [], currentType := "",
    currentArticleId := "", currentTitle := "", fields := [], problems := [],
    subproblems := [], counterMissingFields := 0, counterFlawedNames := 0,
    counterWrongTypes := 0, counterNonUniqueId := 0, lineNo := 0 }

/-- Run configuration: the usage set built from the aux file, the (possibly
config-file supplied) schema, the current calendar year (`datetime.now().year`),
the external `dateutil` date parser (abstracted to a success predicate) and
the fuel bound for alias resolution. -/
structure Config where
  usedCits : List String
  schema : List (String × SchemaVal)
  nowYear : Int
  urldateOk : String → Bool
  aliasFuel : Nat

/-- The gate `currentId in used_cits or not used_cits` (lines 142, 169, 212). -/
def inScopeB (cfg : Config) (id : String) : Bool :=
  cfg.usedCits.contains id || cfg.usedCits.isEmpty

/-- Append a subproblem message and increment the counter of its category in
one step, mirroring the adjacent `subproblems.append(...)` /
`counter... += 1` pairs of the script. -/
def addProblem (c : Cat) (m : String) (st : CheckState) : CheckState :=
  { st with
    subproblems := st.subproblems ++ [{ cat := c, msg := m }],
    counterMissingFields := st.counterMissingFields + (if c = .missingField then 1 else 0),
    counterFlawedNames := st.counterFlawedNames + (if c = .flawedName then 1 else 0),
    counterWrongTypes := st.counterWrongTypes + (if c = .wrongType then 1 else 0),
    counterNonUniqueId := st.counterNonUniqueId + (if c = .nonUniqueId then 1 else 0) }

/-- Append the uncounted `pages` advisory message (lines 260–261: an append
with no counter increment). -/
def addAdvisory (m : String) (st : CheckState) : CheckState :=
  { st with subproblems := st.subproblems ++ [{ cat := .advisory, msg := m }] }

/-- Message of line 151, interpolating the resolved type and the quoted field spec. -/
def missingFieldMsg (t spec : String) : String :=
  t ++ (": missing field \x27") ++ spec ++ ("\x27")

/-- Message of line 161. -/
def urlUrldateMsg : String :=
  "missing field \x27urldate\x27 when \x27url\x27 is given"

/-- Message of line 166. -/
def urlDoiMsg : String :=
  "both \x27url\x27 and \x27doi\x27 given - only one recommended"

/-- Message of line 199. -/
def nonUniqueMsg (id : String) : String :=
  ("non-unique id: \x27") ++ id ++ ("\x27")

/-- Message of line 206, interpolating the line number and the new type. -/
def missingBibkeyMsg (lineNo : Nat) (typ : String) : String :=
  ("line ") ++ toString lineNo ++ (": missing bibkey for ") ++ typ ++ (" found")

/-- Message of line 219, interpolating the field name. -/
def nullValueMsg (field : String) : String :=
  ("value of field ") ++ field ++ (" is null")

/-- Message of line 226. -/
def authorCommaMsg (value : String) : String :=
  ("flawed name: author with more than 1 comma found \x27") ++ value ++ ("\x27")

/-- Message of line 231. -/
def authorBracesMsg : String :=
  "authors field has curly braces \x7b\x7d - not needed"

/-- Message of line 242. -/
def authorKeyMsg (lastname : String) : String :=
  ("first authors last name \x27") ++ lastname ++ ("\x27 not part of bib-key")

/-- Message of line 250, interpolating the two year bounds. -/
def yearRangeMsg (maxyear : Int) : String :=
  ("year must be in range of (1900, ") ++ toString maxyear ++ (")")

/-- Message of line 253, reporting the quoted raw value. -/
def yearParseMsg (value : String) : String :=
  ("failed to parse year \x27") ++ value ++ ("\x27")

/-- Message of line 257. -/
def yearKeyMsg : String :=
  "year is not part of bib-key"

/-- Message of line 261 (note the typo `likey` present in the source). -/
def pagesAdvisoryMsg (value : String) : String :=
  ("pages \x27") ++ value ++ ("\x27 is most likey not correct: check that your reference really starts on page 1")

/-- Message of line 267. -/
def urldateMsg (value : String) : String :=
  ("urldate \x27") ++ value ++ ("\x27 is not formatted according to ISO 8601")

/-- Message of line 285. -/
def proceedingsMsg : String :=
  "wrong type: maybe should be \x27inproceedings\x27 because entry has page numbers"

/-- Message of line 291. -/
def journalMsg (value : String) : String :=
  ("flawed name: abbreviated journal title \x27") ++ value ++ ("\x27")

/-- The strip set of line 217 (braces, space, comma, newline) used on field
values and surname tokens. -/
def valueStripChars : List Char := ['\x7b', '\x7d', ' ', ',', '\n']

/-- Lines 223–227: one flawed-name problem per author name holding more
than one comma. -/
def authorCommaLoop (value : String) (st : CheckState) : CheckState :=
  (pySplit (" and ") value).foldl
    (fun s a => if countChar (',') a > 1 then addProblem .flawedName (authorCommaMsg value) s else s)
    st

/-- Lines 229–232: curly braces anywhere in the author value. -/
def authorBracesCheck (value : String) (st : CheckState) : CheckState :=
  if strIn ("\x7b") value || strIn ("\x7d") value then
    addProblem .flawedName authorBracesMsg st
  else st

/-- Lines 234–238: extract the last name token of the first author. -/
def firstAuthorLastnameOf (value : String) : String :=
  let firstAuthor := (pySplit (" and ") value).headD ("")
  if strIn (",") firstAuthor then
    pyStrip valueStripChars ((pySplit (",") firstAuthor).headD (""))
  else
    pyStrip valueStripChars ((pySplit (" ") firstAuthor).getLastD (""))

/-- Lines 239–243: the normalized surname (or its hyphen-free form) must be
a substring of the bib-key. -/
def authorKeyCheck (value : String) (st : CheckState) : CheckState :=
  if !(strIn (normalizeSurname (firstAuthorLastnameOf value)) st.currentId) &&
      !(strIn (removeChar ('-') (normalizeSurname (firstAuthorLastnameOf value))) st.currentId) then
    addProblem .flawedName (authorKeyMsg (normalizeSurname (firstAuthorLastnameOf value))) st
  else st

/-- The author-field rules of lines 221–243, in source order.  The
assignment `currentAuthor = filter(...)` at line 228 builds a lazy object
that is never consumed and has no observable effect, so it is not
modelled. -/
def authorCheck (value : String) (st : CheckState) : CheckState :=
  authorKeyCheck value (authorBracesCheck value (authorCommaLoop value st))

/-- Lines 246–254: `int(value)` must lie in `(1900, current year + 1]`; a
`ValueError` reports the raw value instead. -/
def yearRangeCheck (cfg : Config) (value : String) (st : CheckState) : CheckState :=
  match pyInt value with
  | some n =>
    if !(decide (1900 < n) && decide (n ≤ cfg.nowYear + 1)) then
      addProblem .flawedName (yearRangeMsg (cfg.nowYear + 1)) st
    else st
  | none => addProblem .flawedName (yearParseMsg value) st

/-- Lines 255–258: the year literal must occur in the bib-key. -/
def yearKeyCheck (value : String) (st : CheckState) : CheckState :=
  if !(strIn value st.currentId) then addProblem .flawedName yearKeyMsg st else st

/-- The year-field rules of lines 244–258, in source order. -/
def yearCheck (cfg : Config) (value : String) (st : CheckState) : CheckState :=
  yearKeyCheck value (yearRangeCheck cfg value st)

/-- The pages advisory of lines 259–261 (no counter increment). -/
def pagesCheck (value : String) (st : CheckState) : CheckState :=
  if pyStartsWith ("1--") value then addAdvisory (pagesAdvisoryMsg value) st else st

/-- The urldate rule of lines 262–268, with `dateutil.parser.parse`
abstracted to the configured success predicate. -/
def urldateCheck (cfg : Config) (value : String) (st : CheckState) : CheckState :=
  if !(cfg.urldateOk value) then addProblem .flawedName (urldateMsg value) st else st

/-- Lines 218–220: the `null`-valued field check. -/
def nullStep (field value : String) (st : CheckState) : CheckState :=
  if value = ("null") then addProblem .missingField (nullValueMsg field) st else st

/-- Lines 221–243: the author rules, guarded on the field name. -/
def authorStep (field value : String) (st : CheckState) : CheckState :=
  if field = ("author") then authorCheck value st else st

/-- Lines 244–258: the year rules, guarded on the field name. -/
def yearStep (cfg : Config) (field value : String) (st : CheckState) : CheckState :=
  if field = ("year") then yearCheck cfg value st else st

/-- Lines 259–261: the pages advisory, guarded on the field name. -/
def pagesStep (field value : String) (st : CheckState) : CheckState :=
  if field = ("pages") then pagesCheck value st else st

/-- Lines 262–268: the urldate rule, guarded on the field name. -/
def urldateStep (cfg : Config) (field value : String) (st : CheckState) : CheckState :=
  if field = ("urldate") then urldateCheck cfg value st else st

/-- Lines 269–270: capture `citeulike-article-id`. -/
def articleIdStep (field value : String) (st : CheckState) : CheckState :=
  if field = ("citeulike-article-id") then { st with currentArticleId := value } else st

/-- Lines 271–272: capture the brace-cleaned title. -/
def titleStep (field value : String) (st : CheckState) : CheckState :=
  if field = ("title") then
    { st with currentTitle := removeChar ('\x7d') (removeChar ('\x7b') value) }
  else st

/-- Lines 283–286: `proceedings` entries with page numbers. -/
def proceedingsStep (field : String) (st : CheckState) : CheckState :=
  if st.currentType = ("proceedings") && field = ("pages") then
    addProblem .wrongType proceedingsMsg st
  else st

/-- Lines 288–292: abbreviated journal titles (the period is looked for in
the whole line, not just the value). -/
def journalStep (field line value : String) (st : CheckState) : CheckState :=
  if st.currentType = ("article") && field = ("journal") && strIn (".") line then
    addProblem .flawedName (journalMsg value) st
  else st

/-- The field name of a content line: `line.split("=")[0].strip().lower()`. -/
def fieldOf (line : String) : String :=
  pyLower (pyStripWs ((pySplit ("=") line).headD ("")))

/-- The field value of a content line (line 217): the second group of the
split at `=`, stripped of braces, spaces, commas and newlines; the index-1
access is guarded by the membership test on `=` in the script. -/
def valueOf (line : String) : String :=
  pyStrip valueStripChars ((pySplit ("=") line).getD 1 (""))

/-- Processing of one non-boundary line (lines 208–292).  The doi branch
(lines 273–277) appends its message and then executes
`counterDocumentLinkErrors += 1` on a name that is never initialised, which
raises `NameError` and kills the process: modelled as `.error .nameErrorDoi`
(the appended message dies with the process). -/
def onContent (cfg : Config) (st : CheckState) (line : String) : Except RunError CheckState :=
  let st :=
    if line ≠ ("") then { st with completeEntry := st.completeEntry ++ line ++ ("<br />") }
    else st
  if inScopeB cfg st.currentId then
    if strIn ("=") line then
      let field := fieldOf line
      let value := valueOf line
      let st :=
        titleStep field value (articleIdStep field value (urldateStep cfg field value
          (pagesStep field value (yearStep cfg field value (authorStep field value
            (nullStep field value { st with fields := st.fields ++ [field] }))))))
      if field = ("doi") && pyStartsWith ("http") value then
        .error .nameErrorDoi
      else
        .ok (journalStep field line value (proceedingsStep field st))
    else .ok st
  else .ok st

/-- The required-fields loop of lines 147–152 over the resolved field-spec
list: a spec is satisfied if any of its `/`-alternatives occurs in the
observed field list; each unsatisfied spec appends a missing-field problem. -/
def requiredLoop (t : String) (reqs flds : List String) (st : CheckState) : CheckState :=
  reqs.foldl
    (fun s spec =>
      if (pySplit ("/") spec).any (fun f => flds.contains f) then s
      else addProblem .missingField (missingFieldMsg t spec) s)
    st

/-- Lines 142–157: gate on the usage set, resolve the type through schema
aliases and run the required-fields loop (in scope), or discard the pending
subproblems (out of scope).  The unrecognized-type `print` of line 155 has
no effect on the state. -/
def requiredPhase (cfg : Config) (st : CheckState) : Except RunError CheckState :=
  if inScopeB cfg st.currentId then
    if (schemaLookup cfg.schema st.currentType).isSome then
      match resolveAux cfg.schema cfg.aliasFuel st.currentType with
      | .found t reqs => .ok (requiredLoop t reqs st.fields { st with currentType := t })
      | .keyError => .error .keyError
      | .outOfFuel => .error .aliasFuelExhausted
    else .ok st
  else .ok { st with subproblems := [] }

/-- Lines 169–194: build the entry appended to `problems`. -/
def mkEntry (st : CheckState) : ProblemEntry :=
  { id := st.currentId, typ := st.currentType, title := st.currentTitle,
    articleId := st.currentArticleId, completeEntry := st.completeEntry,
    subs := st.subproblems }

/-- Append the just-built entry to `problems`. -/
def emitEntry (st : CheckState) : CheckState :=
  { st with problems := st.problems ++ [mkEntry st] }

/-- Lines 159–162: `url` without `urldate`. -/
def urlPairStep (st : CheckState) : CheckState :=
  if st.fields.contains ("url") && !(st.fields.contains ("urldate")) then
    addProblem .missingField urlUrldateMsg st
  else st

/-- Lines 164–167: both `url` and `doi` given. -/
def urlDoiStep (st : CheckState) : CheckState :=
  if st.fields.contains ("url") && st.fields.contains ("doi") then
    addProblem .flawedName urlDoiMsg st
  else st

/-- Lines 169–194: emit the entry when the finalized record is in scope. -/
def emitStep (cfg : Config) (st : CheckState) : CheckState :=
  if inScopeB cfg st.currentId then emitEntry st else st

/-- Lines 195–196: reset field and subproblem accumulation. -/
def resetStep (st : CheckState) : CheckState :=
  { st with fields := [], subproblems := [] }

/-- Lines 197–202: install the new identifier and flag non-unique ids
against the running `citations` registry. -/
def newIdStep (newId : String) (st : CheckState) : CheckState :=
  if st.citations.contains newId then
    addProblem .nonUniqueId (nonUniqueMsg newId) { st with currentId := newId }
  else
    { st with currentId := newId, citations := st.citations ++ [newId] }

/-- Lines 203–204: install the new entry type and restart the raw-text echo. -/
def newTypeStep (line : String) (st : CheckState) : CheckState :=
  { st with
    currentType := pyLower (pyStrip ['@', ' '] ((pySplit ("\x7b") line).headD (""))),
    completeEntry := line ++ ("<br />") }

/-- Lines 205–207: an empty identifier is a flawed-name problem recorded
against the record being started. -/
def bibkeyStep (st : CheckState) : CheckState :=
  if st.currentId = ("") then
    addProblem .flawedName (missingBibkeyMsg st.lineNo st.currentType) st
  else st

/-- Processing of one boundary line (a line starting with `@`, lines
140–207): finalize the pending record, then start the new one.  Indexing
the second brace-split group at line 197 raises `IndexError` when the line
has no brace: modelled as `.error .indexError`. -/
def onBoundary (cfg : Config) (st : CheckState) (line : String) : Except RunError CheckState :=
  match requiredPhase cfg st with
  | .error e => .error e
  | .ok st =>
    let st := resetStep (emitStep cfg (urlDoiStep (urlPairStep st)))
    match (pySplit ("\x7b") line).drop 1 with
    | [] => .error .indexError
    | seg :: _ =>
      let newId := pyStripWs (pyLower (pyRstrip [',', '\n'] seg))
      .ok (bibkeyStep (newTypeStep line (newIdStep newId st)))

/-- One iteration of the main loop (lines 137–292): count the line, strip
newlines, and dispatch on the `@` marker. -/
def processLine (cfg : Config) (st : CheckState) (rawLine : String) : Except RunError CheckState :=
  let st := { st with lineNo := st.lineNo + 1 }
  let line := pyStrip ['\n'] rawLine
  if pyStartsWith ("@") line then onBoundary cfg st line else onContent cfg st line

/-- Fold the per-line step over the input lines. -/
def runLines (cfg : Config) (st : CheckState) : List String → Except RunError CheckState
  | [] => .ok st
  | l :: ls =>
    match processLine cfg st l with
    | .ok st2 => runLines cfg st2 ls
    | .error e => .error e

/-- The whole main loop on a bib file given as a list of lines.  Note that
after the loop the script goes straight to reporting: there is no
end-of-stream finalisation of the pending record. -/
def run (cfg : Config) (lines : List String) : Except RunError CheckState :=
  runLines cfg initState lines

/-- Extract the final state of a successful run (used to state closed
evaluation theorems). -/
def okState (r : Except RunError CheckState) : Option CheckState :=
  match r with
  | .ok st => some st
  | .error _ => none

/-- Line 299: `problemCount` is the sum of the four counters. -/
def problemCount (st : CheckState) : Nat :=
  st.counterMissingFields + st.counterFlawedNames + st.counterWrongTypes + st.counterNonUniqueId

/-- Number of problems of one category in a list. -/
def countCat (c : Cat) (l : List Problem) : Nat :=
  (l.filter (fun p => p.cat = c)).length

/-- All problem messages carried by emitted entries. -/
def emittedProblems (st : CheckState) : List Problem :=
  (st.problems.map ProblemEntry.subs).flatten

/-- Link prefixes of lines 26–30 (with the empty `citeulikeUsername`, no
CiteULike link is rendered). -/
def scholarHref : String := "http://scholar.google.de/scholar?hl=en&q="

/-- DuckDuckGo link prefix of line 29. -/
def googleHref : String := "https://duckduckgo.com/?q="

/-- DBLP link prefix of line 30. -/
def dblpHref : String := "http://dblp.org/search/index.php#query="

/-- The HTML string built for one entry by lines 170–193 of the script; this
is the exact string appended to `problems` and later sorted by
`problems.sort()`. -/
def render (e : ProblemEntry) : String :=
  let cleanedTitle := pyRemovePunct e.title
  ("<div id=\x27") ++ e.id ++ ("\x27 class=\x27problem severe") ++ toString e.subs.length ++ ("\x27>")
  ++ ("<h2>") ++ e.id ++ (" (") ++ e.typ ++ (")</h2> ")
  ++ ("<div class=\x27links\x27>")
  ++ (" | <a href=\x27") ++ scholarHref ++ cleanedTitle ++ ("\x27 target=\x27_blank\x27>Scholar</a>")
  ++ (" | <a href=\x27") ++ googleHref ++ cleanedTitle ++ ("\x27 target=\x27_blank\x27>Google</a>")
  ++ (" | <a href=\x27") ++ dblpHref ++ cleanedTitle ++ ("\x27 target=\x27_blank\x27>DBLP</a>")
  ++ ("</div>")
  ++ ("<div class=\x27reference\x27>") ++ e.title ++ ("</div>")
  ++ ("<ul>")
  ++ String.join (e.subs.map (fun p => ("<li>") ++ p.msg ++ ("</li>")))
  ++ ("</ul>")
  ++ ("<form class=\x27problem_control\x27><label>checked</label><input type=\x27checkbox\x27 class=\x27checked\x27/></form>")
  ++ ("<div class=\x27bibtex_toggle\x27>Current BibTeX Entry</div>")
  ++ ("<div class=\x27bibtex\x27>") ++ e.completeEntry ++ ("</div>")
  ++ ("</div>")

/-- The `problems` list as the script holds it: rendered HTML strings. -/
def renderedProblems (st : CheckState) : List String :=
  st.problems.map render

/-- Lexicographic (code-point) comparison of character lists: exactly
the `<=` comparison of Python `str` values. -/
def charListLe : List Char → List Char → Bool
  | [], _ => true
  | _ :: _, [] => false
  | a :: as, b :: bs =>
    if a.toNat < b.toNat then true
    else if b.toNat < a.toNat then false
    else charListLe as bs

/-- The `<=` comparison of Python on strings. -/
def strLeB (a b : String) : Bool :=
  charListLe a.toList b.toList

/-- The `<=` comparison of Python on strings, as a decidable relation. -/
def strLe (a b : String) : Prop := strLeB a b = true

instance : DecidableRel strLe := fun a b => instDecidableEqBool (strLeB a b) true

/-- Comparison of entries by identifier alone (the sort key the spec names). -/
def idLe (a b : ProblemEntry) : Prop := strLe a.id b.id

instance : DecidableRel idLe := fun a b => inferInstanceAs (Decidable (strLe a.id b.id))

/-- Line 576, `problems.sort()`: the stable Python sort of the rendered entry
strings under lexicographic code-point comparison of the whole strings
(modelled by a stable insertion sort, which agrees with any stable sort
under a total preorder). -/
def sortedReport (st : CheckState) : List String :=
  (renderedProblems st).insertionSort strLe

/-- Modelled from the words of the spec, for comparison with `sortedReport`: a
stable lexicographic sort whose key is the record identifier alone, applied
to the same entries, then rendered. -/
def specSortedById (entries : List ProblemEntry) : List String :=
  (entries.insertionSort idLe).map render

/-- The usage-set extraction from the aux file (lines 86–95): for every line
starting with `\citation`, split off the group after the first `{`, strip the
closing brace and whitespace, and add each non-empty comma-space-separated
identifier (verbatim, no case folding) to the set; `set.add` is modelled by
a duplicate-skipping append.  A citation line with no brace would raise
`IndexError` when the second split group is indexed. -/
def usedCitsLine (acc : List String) (line : String) : Except RunError (List String) :=
  if pyStartsWith ("\\citation") line then
    match (pySplit ("\x7b") line).drop 1 with
    | [] => .error .indexError
    | seg :: _ =>
      let cits := pySplit (", ") (pyRstrip ['\x7d', ' ', '\n'] seg)
      .ok (cits.foldl (fun s cit => if cit = ("") then s else if s.contains cit then s else s ++ [cit]) acc)
  else .ok acc

/-- Fold `usedCitsLine` over the aux lines. -/
def buildUsedCits : List String → List String → Except RunError (List String)
  | acc, [] => .ok acc
  | acc, l :: ls =>
    match usedCitsLine acc l with
    | .ok acc2 => buildUsedCits acc2 ls
    | .error e => .error e

/-! ### Lemmas about the lexicographic comparison -/

theorem charListLe_total : ∀ a b : List Char, (charListLe a b || charListLe b a) = true := by
  intro a
  induction a with
  | nil => intro b; simp [charListLe]
  | cons x xs ih =>
    intro b
    cases b with
    | nil => simp [charListLe]
    | cons y ys =>
      by_cases hxy : x.toNat < y.toNat
      · simp [charListLe, hxy]
      · by_cases hyx : y.toNat < x.toNat
        · simp [charListLe, hxy, hyx]
        · simpa [charListLe, hxy, hyx] using ih ys

theorem charListLe_trans :
    ∀ a b c : List Char, charListLe a b = true → charListLe b c = true →
      charListLe a c = true := by
  intro a
  induction a with
  | nil => intro b c _ _; simp [charListLe]
  | cons x xs ih =>
    intro b c hab hbc
    cases b with
    | nil => simp [charListLe] at hab
    | cons y ys =>
      cases c with
      | nil => simp [charListLe] at hbc
      | cons z zs =>
        simp only [charListLe] at hab hbc ⊢
        by_cases hxy : x.toNat < y.toNat
        · by_cases hyz : y.toNat < z.toNat
          · have hxz : x.toNat < z.toNat := Nat.lt_trans hxy hyz
            simp [hxz]
          · by_cases hzy : z.toNat < y.toNat
            · simp [hyz, hzy] at hbc
            · have hxz : x.toNat < z.toNat := by omega
              simp [hxz]
        · by_cases hyx : y.toNat < x.toNat
          · simp [hxy, hyx] at hab
          · simp only [if_neg hxy, if_neg hyx] at hab
            by_cases hyz : y.toNat < z.toNat
            · have hxz : x.toNat < z.toNat := by omega
              simp [hxz]
            · by_cases hzy : z.toNat < y.toNat
              · simp [hyz, hzy] at hbc
              · simp only [if_neg hyz, if_neg hzy] at hbc
                have hxz : ¬ x.toNat < z.toNat := by omega
                have hzx : ¬ z.toNat < x.toNat := by omega
                simp only [if_neg hxz, if_neg hzx]
                exact ih ys zs hab hbc

theorem strLeB_total (a b : String) : (strLeB a b || strLeB b a) = true :=
  charListLe_total a.toList b.toList

theorem strLeB_trans (a b c : String) (h1 : strLeB a b = true) (h2 : strLeB b c = true) :
    strLeB a c = true :=
  charListLe_trans a.toList b.toList c.toList h1 h2

instance : IsTotal String strLe :=
  ⟨fun a b => (Bool.or_eq_true _ _).mp (strLeB_total a b)⟩

instance : IsTrans String strLe :=
  ⟨fun a b c => strLeB_trans a b c⟩

/-! ### The counter/message balance invariant -/

/-- Each of the four counters equals the number of problems of its category
among the messages already emitted inside entries plus the messages still
pending in `subproblems`. -/
def Balanced (st : CheckState) : Prop :=
  st.counterMissingFields =
    countCat .missingField (emittedProblems st) + countCat .missingField st.subproblems ∧
  st.counterFlawedNames =
    countCat .flawedName (emittedProblems st) + countCat .flawedName st.subproblems ∧
  st.counterWrongTypes =
    countCat .wrongType (emittedProblems st) + countCat .wrongType st.subproblems ∧
  st.counterNonUniqueId =
    countCat .nonUniqueId (emittedProblems st) + countCat .nonUniqueId st.subproblems

theorem countCat_append (c : Cat) (l1 l2 : List Problem) :
    countCat c (l1 ++ l2) = countCat c l1 + countCat c l2 := by
  simp [countCat, List.filter_append]

theorem balanced_initState : Balanced initState := by
  refine ⟨?_, ?_, ?_, ?_⟩ <;> rfl

theorem balanced_addProblem (c : Cat) (m : String) (st : CheckState) (h : Balanced st) :
    Balanced (addProblem c m st) := by
  obtain ⟨h1, h2, h3, h4⟩ := h
  cases c <;>
    refine ⟨?_, ?_, ?_, ?_⟩ <;>
      simp [addProblem, emittedProblems, countCat, List.filter_append, h1, h2, h3, h4] <;>
        omega

theorem balanced_addAdvisory (m : String) (st : CheckState) (h : Balanced st) :
    Balanced (addAdvisory m st) := by
  obtain ⟨h1, h2, h3, h4⟩ := h
  refine ⟨?_, ?_, ?_, ?_⟩ <;>
    simp [addAdvisory, emittedProblems, countCat, List.filter_append, h1, h2, h3, h4]

/-- A state change that leaves the problem store and the counters alone
preserves the balance. -/
theorem balanced_congr (st st' : CheckState)
    (hp : st'.problems = st.problems) (hs : st'.subproblems = st.subproblems)
    (h1 : st'.counterMissingFields = st.counterMissingFields)
    (h2 : st'.counterFlawedNames = st.counterFlawedNames)
    (h3 : st'.counterWrongTypes = st.counterWrongTypes)
    (h4 : st'.counterNonUniqueId = st.counterNonUniqueId)
    (h : Balanced st) : Balanced st' := by
  obtain ⟨g1, g2, g3, g4⟩ := h
  refine ⟨?_, ?_, ?_, ?_⟩ <;>
    simp only [emittedProblems] at g1 g2 g3 g4 ⊢ <;>
      simp only [hp, hs, h1, h2, h3, h4] <;>
        first
          | exact g1
          | exact g2
          | exact g3
          | exact g4

theorem balanced_foldl {α : Type} (g : CheckState → α → CheckState)
    (hg : ∀ s x, Balanced s → Balanced (g s x)) :
    ∀ (l : List α) (st : CheckState), Balanced st → Balanced (l.foldl g st) := by
  intro l
  induction l with
  | nil => intro st h; exact h
  | cons x xs ih => intro st h; exact ih (g st x) (hg st x h)

/-- The gate is always open when the usage set is empty. -/
theorem inScopeB_of_empty (cfg : Config) (hU : cfg.usedCits = []) (id : String) :
    inScopeB cfg id = true := by
  simp [inScopeB, hU]

/-- A conditionally applied `addProblem` preserves the balance. -/
theorem balanced_iteAdd (p : Prop) [Decidable p] (c : Cat) (m : String)
    (st : CheckState) (h : Balanced st) :
    Balanced (if p then addProblem c m st else st) := by
  split
  exacts [balanced_addProblem _ _ _ h, h]

/-- Symmetric form with the skip in the `then` branch. -/
theorem balanced_iteSkipAdd (p : Prop) [Decidable p] (c : Cat) (m : String)
    (st : CheckState) (h : Balanced st) :
    Balanced (if p then st else addProblem c m st) := by
  split
  exacts [h, balanced_addProblem _ _ _ h]

theorem balanced_authorCommaLoop (value : String) (st : CheckState) (h : Balanced st) :
    Balanced (authorCommaLoop value st) :=
  balanced_foldl _ (fun s _ hs => balanced_iteAdd _ _ _ s hs) (pySplit (" and ") value) st h

theorem balanced_authorCheck (value : String) (st : CheckState) (h : Balanced st) :
    Balanced (authorCheck value st) := by
  unfold authorCheck authorKeyCheck authorBracesCheck
  exact balanced_iteAdd _ _ _ _ (balanced_iteAdd _ _ _ _ (balanced_authorCommaLoop value st h))

theorem balanced_yearRangeCheck (cfg : Config) (value : String) (st : CheckState)
    (h : Balanced st) : Balanced (yearRangeCheck cfg value st) := by
  unfold yearRangeCheck
  cases pyInt value with
  | some n => exact balanced_iteAdd _ _ _ _ h
  | none => exact balanced_addProblem _ _ _ h

theorem balanced_yearCheck (cfg : Config) (value : String) (st : CheckState) (h : Balanced st) :
    Balanced (yearCheck cfg value st) := by
  unfold yearCheck yearKeyCheck
  exact balanced_iteAdd _ _ _ _ (balanced_yearRangeCheck cfg value st h)

theorem balanced_pagesCheck (value : String) (st : CheckState) (h : Balanced st) :
    Balanced (pagesCheck value st) := by
  unfold pagesCheck
  split
  exacts [balanced_addAdvisory _ _ h, h]

theorem balanced_urldateCheck (cfg : Config) (value : String) (st : CheckState) (h : Balanced st) :
    Balanced (urldateCheck cfg value st) := by
  unfold urldateCheck
  split
  exacts [balanced_addProblem _ _ _ h, h]

theorem balanced_nullStep (f v : String) (st : CheckState) (h : Balanced st) :
    Balanced (nullStep f v st) := by
  unfold nullStep
  split
  exacts [balanced_addProblem _ _ _ h, h]

theorem balanced_authorStep (f v : String) (st : CheckState) (h : Balanced st) :
    Balanced (authorStep f v st) := by
  unfold authorStep
  split
  exacts [balanced_authorCheck _ _ h, h]

theorem balanced_yearStep (cfg : Config) (f v : String) (st : CheckState) (h : Balanced st) :
    Balanced (yearStep cfg f v st) := by
  unfold yearStep
  split
  exacts [balanced_yearCheck _ _ _ h, h]

theorem balanced_pagesStep (f v : String) (st : CheckState) (h : Balanced st) :
    Balanced (pagesStep f v st) := by
  unfold pagesStep
  split
  exacts [balanced_pagesCheck _ _ h, h]

theorem balanced_urldateStep (cfg : Config) (f v : String) (st : CheckState) (h : Balanced st) :
    Balanced (urldateStep cfg f v st) := by
  unfold urldateStep
  split
  exacts [balanced_urldateCheck _ _ _ h, h]

theorem balanced_articleIdStep (f v : String) (st : CheckState) (h : Balanced st) :
    Balanced (articleIdStep f v st) := by
  unfold articleIdStep
  split
  · exact balanced_congr _ _ rfl rfl rfl rfl rfl rfl h
  · exact h

theorem balanced_titleStep (f v : String) (st : CheckState) (h : Balanced st) :
    Balanced (titleStep f v st) := by
  unfold titleStep
  split
  · exact balanced_congr _ _ rfl rfl rfl rfl rfl rfl h
  · exact h

theorem balanced_proceedingsStep (f : String) (st : CheckState) (h : Balanced st) :
    Balanced (proceedingsStep f st) := by
  unfold proceedingsStep
  split
  exacts [balanced_addProblem _ _ _ h, h]

theorem balanced_journalStep (f line v : String) (st : CheckState) (h : Balanced st) :
    Balanced (journalStep f line v st) := by
  unfold journalStep
  split
  exacts [balanced_addProblem _ _ _ h, h]

theorem balanced_urlPairStep (st : CheckState) (h : Balanced st) :
    Balanced (urlPairStep st) := by
  unfold urlPairStep
  split
  exacts [balanced_addProblem _ _ _ h, h]

theorem balanced_urlDoiStep (st : CheckState) (h : Balanced st) :
    Balanced (urlDoiStep st) := by
  unfold urlDoiStep
  split
  exacts [balanced_addProblem _ _ _ h, h]

/-- Emission followed by the reset of `subproblems` moves the pending
messages into the emitted store, keeping the balance. -/
theorem balanced_resetEmit (cfg : Config) (st : CheckState)
    (hs : inScopeB cfg st.currentId = true) (h : Balanced st) :
    Balanced (resetStep (emitStep cfg st)) := by
  obtain ⟨h1, h2, h3, h4⟩ := h
  refine ⟨?_, ?_, ?_, ?_⟩ <;>
    simp [resetStep, emitStep, hs, emitEntry, mkEntry, emittedProblems, countCat,
      List.filter_append, h1, h2, h3, h4]

theorem balanced_newIdStep (newId : String) (st : CheckState) (h : Balanced st) :
    Balanced (newIdStep newId st) := by
  unfold newIdStep
  split
  · exact balanced_addProblem _ _ _ (balanced_congr _ _ rfl rfl rfl rfl rfl rfl h)
  · exact balanced_congr _ _ rfl rfl rfl rfl rfl rfl h

theorem balanced_newTypeStep (line : String) (st : CheckState) (h : Balanced st) :
    Balanced (newTypeStep line st) :=
  balanced_congr _ _ rfl rfl rfl rfl rfl rfl h

theorem balanced_bibkeyStep (st : CheckState) (h : Balanced st) :
    Balanced (bibkeyStep st) := by
  unfold bibkeyStep
  split
  exacts [balanced_addProblem _ _ _ h, h]

/-- Preservation through lines 142–157 when the usage filter is empty. -/
theorem balanced_requiredPhase (cfg : Config) (st st' : CheckState)
    (hU : cfg.usedCits = []) (h : Balanced st)
    (hok : requiredPhase cfg st = .ok st') : Balanced st' := by
  unfold requiredPhase at hok
  rw [inScopeB_of_empty cfg hU, if_pos rfl] at hok
  by_cases hl : (schemaLookup cfg.schema st.currentType).isSome
  · rw [if_pos hl] at hok
    cases hres : resolveAux cfg.schema cfg.aliasFuel st.currentType with
    | found t reqs =>
      rw [hres] at hok
      cases hok
      exact balanced_foldl _
        (fun s spec hs => balanced_iteSkipAdd _ _ _ s hs)
        reqs _ (balanced_congr _ _ rfl rfl rfl rfl rfl rfl h)
    | keyError => rw [hres] at hok; cases hok
    | outOfFuel => rw [hres] at hok; cases hok
  · rw [if_neg hl] at hok
    cases hok
    exact h

/-- Preservation through a boundary line when the usage filter is empty. -/
theorem balanced_onBoundary (cfg : Config) (st st' : CheckState) (line : String)
    (hU : cfg.usedCits = []) (h : Balanced st)
    (hok : onBoundary cfg st line = .ok st') : Balanced st' := by
  unfold onBoundary at hok
  cases hreq : requiredPhase cfg st with
  | error e => rw [hreq] at hok; cases hok
  | ok st1 =>
    rw [hreq] at hok
    have h1 : Balanced st1 := balanced_requiredPhase cfg st st1 hU h hreq
    have h2 : Balanced (resetStep (emitStep cfg (urlDoiStep (urlPairStep st1)))) :=
      balanced_resetEmit cfg _ (inScopeB_of_empty cfg hU _)
        (balanced_urlDoiStep _ (balanced_urlPairStep _ h1))
    cases hsp : (pySplit ("\x7b") line).drop 1 with
    | nil => rw [hsp] at hok; cases hok
    | cons seg rest =>
      rw [hsp] at hok
      cases hok
      exact balanced_bibkeyStep _ (balanced_newTypeStep _ _ (balanced_newIdStep _ _ h2))

/-- Preservation through a content line when the usage filter is empty. -/
theorem balanced_onContent (cfg : Config) (st st' : CheckState) (line : String)
    (h : Balanced st) (hok : onContent cfg st line = .ok st') : Balanced st' := by
  unfold onContent at hok
  have hbase : Balanced (if line ≠ ("") then
      { st with completeEntry := st.completeEntry ++ line ++ ("<br />") } else st) := by
    split
    · exact balanced_congr _ _ rfl rfl rfl rfl rfl rfl h
    · exact h
  by_cases hsc : inScopeB cfg
      (if line ≠ ("") then
        { st with completeEntry := st.completeEntry ++ line ++ ("<br />") } else st).currentId
  · rw [if_pos hsc] at hok
    by_cases heq : strIn ("=") line = true
    · rw [if_pos heq] at hok
      set stb := (if line ≠ ("") then
        { st with completeEntry := st.completeEntry ++ line ++ ("<br />") } else st) with hstb
      have hchain : Balanced
          (titleStep (fieldOf line) (valueOf line)
            (articleIdStep (fieldOf line) (valueOf line)
              (urldateStep cfg (fieldOf line) (valueOf line)
                (pagesStep (fieldOf line) (valueOf line)
                  (yearStep cfg (fieldOf line) (valueOf line)
                    (authorStep (fieldOf line) (valueOf line)
                      (nullStep (fieldOf line) (valueOf line)
                        { stb with fields := stb.fields ++ [fieldOf line] }))))))) :=
        balanced_titleStep _ _ _ (balanced_articleIdStep _ _ _
          (balanced_urldateStep _ _ _ _ (balanced_pagesStep _ _ _
            (balanced_yearStep _ _ _ _ (balanced_authorStep _ _ _
              (balanced_nullStep _ _ _
                (balanced_congr _ _ rfl rfl rfl rfl rfl rfl hbase)))))))
      by_cases hdoi : (decide (fieldOf line = ("doi")) && pyStartsWith ("http") (valueOf line)) = true
      · rw [if_pos hdoi] at hok; cases hok
      · rw [if_neg hdoi] at hok
        cases hok
        exact balanced_journalStep _ _ _ _ (balanced_proceedingsStep _ _ hchain)
    · rw [if_neg heq] at hok
      cases hok
      exact hbase
  · rw [if_neg hsc] at hok
    cases hok
    exact hbase

/-- Preservation through one line of the main loop when the usage filter is
empty. -/
theorem balanced_processLine (cfg : Config) (st st' : CheckState) (rawLine : String)
    (hU : cfg.usedCits = []) (h : Balanced st)
    (hok : processLine cfg st rawLine = .ok st') : Balanced st' := by
  unfold processLine at hok
  have hln : Balanced { st with lineNo := st.lineNo + 1 } :=
    balanced_congr _ _ rfl rfl rfl rfl rfl rfl h
  by_cases hat : pyStartsWith ("@") (pyStrip ['\n'] rawLine) = true
  · rw [if_pos hat] at hok
    exact balanced_onBoundary cfg _ _ _ hU hln hok
  · rw [if_neg hat] at hok
    exact balanced_onContent cfg _ _ _ hln hok

/-- Preservation through the whole loop when the usage filter is empty. -/
theorem balanced_runLines (cfg : Config) (hU : cfg.usedCits = []) :
    ∀ (lines : List String) (st st' : CheckState), Balanced st →
      runLines cfg st lines = .ok st' → Balanced st' := by
  intro lines
  induction lines with
  | nil =>
    intro st st' h hok
    cases hok
    exact h
  | cons l ls ih =>
    intro st st' h hok
    unfold runLines at hok
    cases hpl : processLine cfg st l with
    | ok st2 =>
      rw [hpl] at hok
      exact ih st2 st' (balanced_processLine cfg st st2 l hU h hpl) hok
    | error e => rw [hpl] at hok; cases hok

/-! ### Claim C1: end-of-stream finalisation -/

/-- Configuration for the C1 evaluation: no usage filter, built-in schema. -/
def c1Cfg : Config :=
  { usedCits := [], schema := defaultRequiredFields, nowYear := 2024,
    urldateOk := fun _ => true, aliasFuel := 10 }

/-- A bib file whose final (and only) record is not followed by another
boundary line. -/
def c1Lines : List String :=
  [("@article\x7bmissingvol,"), ("year = 2024,")]

/-- C1: the claim says the last pending record is finalized at end of
stream exactly as on a boundary line.  The code has no such path: after the
loop it reports immediately.  On `c1Lines` the record `missingvol` (an
`article` with every required field absent and a pending flawed-name
problem) gets no required-fields check (`counterMissingFields = 0`), and the
only emitted entry is the phantom entry for the empty pre-first-record
state — no `ProblemEntry` for `missingvol` is ever appended. -/
theorem last_record_never_finalized :
    (okState (run c1Cfg c1Lines)).map (fun st =>
      (st.problems.map ProblemEntry.id, st.counterMissingFields, st.subproblems.length)) =
      some ([("")], 0, 1) := by decide

/-! ### Claim C2: counters versus emitted messages -/

/-- C2 (amended): when the usage filter is empty, each of the four counters
equals the number of problem messages of its category inside emitted
entries plus the messages still pending in the never-finalized final
record, and the reported total equals the sum of the four counters. -/
theorem counters_balance_when_unfiltered (cfg : Config) (lines : List String)
    (st : CheckState) (hU : cfg.usedCits = []) (hrun : run cfg lines = .ok st) :
    Balanced st ∧
      problemCount st = st.counterMissingFields + st.counterFlawedNames +
        st.counterWrongTypes + st.counterNonUniqueId :=
  ⟨balanced_runLines cfg hU lines initState st balanced_initState hrun, rfl⟩

/-- Configuration with an active usage filter that does not contain `dup`. -/
def c2xCfg : Config :=
  { usedCits := [("x")], schema := defaultRequiredFields, nowYear := 2024,
    urldateOk := fun _ => true, aliasFuel := 10 }

/-- Two records sharing the identifier `dup`, both outside the usage set. -/
def c2xLines : List String :=
  [("@article\x7bdup,"), ("@article\x7bdup,")]

/-- C2 (counterexample): with the usage filter active, the duplicate id
`dup` raises a non-unique-id problem whose counter is incremented but whose
message is discarded by the out-of-scope reset, so the counter (1) does not
match the number of emitted non-unique-id messages (0). -/
theorem counter_without_message_under_filter :
    (okState (run c2xCfg c2xLines)).map (fun st =>
      decide (st.counterNonUniqueId = countCat .nonUniqueId (emittedProblems st))) =
      some false := by decide

/-- Configuration for the C2 witness run. -/
def c2wCfg : Config :=
  { usedCits := [], schema := defaultRequiredFields, nowYear := 2024,
    urldateOk := fun _ => true, aliasFuel := 10 }

/-- A short unfiltered run exercising missing-field and flawed-name
problems. -/
def c2wLines : List String :=
  [("@misc\x7bx2020,"), ("year = 2020,"), ("@misc\x7by,")]

/-- Final state of the C2 witness run. -/
def c2wState : CheckState :=
  (okState (run c2wCfg c2wLines)).getD initState

/-- Witness for the amended C2 on a concrete unfiltered run. -/
theorem counters_balance_witness :
    c2wCfg.usedCits = ([]) ∧
      (Balanced c2wState ∧
        problemCount c2wState = c2wState.counterMissingFields + c2wState.counterFlawedNames +
          c2wState.counterWrongTypes + c2wState.counterNonUniqueId) :=
  ⟨rfl, counters_balance_when_unfiltered c2wCfg c2wLines c2wState rfl rfl⟩

/-! ### Claim C3 / C4: the doi rule kills the run -/

/-- Configuration for the C3 evaluation. -/
def c3Cfg : Config :=
  { usedCits := [], schema := defaultRequiredFields, nowYear := 2024,
    urldateOk := fun _ => true, aliasFuel := 10 }

/-- A record whose doi starts with `http`, followed by a further record
that should still be processed according to the claim. -/
def c3Lines : List String :=
  [("@misc\x7ba2024x,"), ("doi = http://dx.doi.org/10.1000/182,"),
   ("@misc\x7bb2024y,"), ("title = \x7bNever reached\x7d,")]

/-- C3: the claim says no field-level check can abort the run.  The doi
branch executes `counterDocumentLinkErrors += 1` on a name that is never
initialised, raising `NameError`: the whole run dies on the doi line and
the following record is never processed. -/
theorem doi_rule_aborts_run : run c3Cfg c3Lines = .error .nameErrorDoi := rfl

/-- Configuration for the C4 evaluation. -/
def c4Cfg : Config :=
  { usedCits := [], schema := defaultRequiredFields, nowYear := 2024,
    urldateOk := fun _ => true, aliasFuel := 10 }

/-- A single record carrying a URL-shaped doi value. -/
def c4Lines : List String :=
  [("@misc\x7bsmith2020a,"), ("doi = https://doi.org/10.5555/12345678,")]

/-- C4: the claim says a doi value starting with `http` yields exactly one
flawed-name problem and a flawed-name counter increment.  Instead the
increment hits the undefined `counterDocumentLinkErrors`, raising
`NameError`: no flawed-name problem or counter survives, the process dies. -/
theorem doi_http_crashes_not_counts : run c4Cfg c4Lines = .error .nameErrorDoi := rfl

/-! ### Claim C5: schema alias cycles -/

/-- A cyclic alias configuration: `a` aliases `b` and `b` aliases `a`. -/
def cyclicSchema : List (String × SchemaVal) :=
  [(("a"), SchemaVal.alias ("b")), (("b"), SchemaVal.alias ("a"))]

/-- C5: the claim says alias resolution terminates on every schema with
cycles detected as configuration errors.  The resolution loop of lines
145–146 has no cycle detection: on the cyclic schema it never reaches a
field list, however many lookups it is allowed — the unbounded
`while` loop runs forever. -/
theorem alias_cycle_never_resolves :
    ∀ fuel : Nat, resolveAux cyclicSchema fuel ("a") = .outOfFuel ∧
      resolveAux cyclicSchema fuel ("b") = .outOfFuel := by
  intro fuel
  induction fuel with
  | zero => exact ⟨rfl, rfl⟩
  | succ n ih =>
    constructor
    · show resolveAux cyclicSchema n ("b") = .outOfFuel
      exact ih.2
    · show resolveAux cyclicSchema n ("a") = .outOfFuel
      exact ih.1

/-! ### Claim C6: required-fields counting -/

theorem all_not_eq_not_any {α : Type} (p : α → Bool) (l : List α) :
    (l.all fun x => !(p x)) = !(l.any p) := by
  induction l with
  | nil => rfl
  | cons x xs ih => simp [List.all_cons, List.any_cons, ih, Bool.not_or]

theorem countCat_addProblem_self (c : Cat) (m : String) (st : CheckState) :
    countCat c (addProblem c m st).subproblems = countCat c st.subproblems + 1 := by
  simp [addProblem, countCat, List.filter_append, List.filter]

/-- Counting the problems raised by the required-fields loop: one per spec
none of whose `/`-alternatives is an observed field. -/
theorem requiredLoop_count (t : String) (flds : List String) :
    ∀ (reqs : List String) (st : CheckState),
      countCat .missingField (requiredLoop t reqs flds st).subproblems =
        countCat .missingField st.subproblems +
          (reqs.filter (fun spec =>
            (pySplit ("/") spec).all (fun f => !(flds.contains f)))).length := by
  intro reqs
  induction reqs with
  | nil => intro st; simp [requiredLoop]
  | cons spec rest ih =>
    intro st
    unfold requiredLoop at ih ⊢
    rw [List.foldl_cons, List.filter_cons]
    by_cases hs : (pySplit ("/") spec).any (fun f => flds.contains f) = true
    · rw [if_pos hs, ih st, all_not_eq_not_any, hs]
      simp
    · rw [if_neg hs, ih _]
      rw [all_not_eq_not_any, Bool.eq_false_iff.mpr hs]
      simp [countCat_addProblem_self]
      omega

theorem schemaLookup_isSome_of_found (schema : List (String × SchemaVal)) (fuel : Nat)
    (t tr : String) (reqs : List String)
    (h : resolveAux schema fuel t = .found tr reqs) :
    (schemaLookup schema t).isSome = true := by
  cases fuel with
  | zero => cases h
  | succ n =>
    unfold resolveAux at h
    cases hl : schemaLookup schema t with
    | none => rw [hl] at h; cases h
    | some v => simp [hl]

/-- C6: for a record whose type resolves through the schema aliases to a
field-spec list, the finalize-time phase raises exactly one missing-field
problem per required spec none of whose `/`-separated alternatives occurs
in the observed field list of the record. -/
theorem required_fields_count (cfg : Config) (st : CheckState) (t : String)
    (reqs : List String)
    (hscope : inScopeB cfg st.currentId = true)
    (hres : resolveAux cfg.schema cfg.aliasFuel st.currentType = .found t reqs) :
    requiredPhase cfg st = .ok (requiredLoop t reqs st.fields { st with currentType := t }) ∧
      countCat .missingField
          (requiredLoop t reqs st.fields { st with currentType := t }).subproblems =
        countCat .missingField st.subproblems +
          (reqs.filter (fun spec =>
            (pySplit ("/") spec).all (fun f => !(st.fields.contains f)))).length := by
  constructor
  · unfold requiredPhase
    rw [hscope, if_pos rfl,
      if_pos (schemaLookup_isSome_of_found cfg.schema cfg.aliasFuel _ _ _ hres), hres]
  · have h := requiredLoop_count t st.fields reqs { st with currentType := t }
    simpa using h

/-- Configuration for the C6 witness. -/
def c6Cfg : Config :=
  { usedCits := [], schema := defaultRequiredFields, nowYear := 2024,
    urldateOk := fun _ => true, aliasFuel := 10 }

/-- A pending `conference` record (alias of `inproceedings`) with only a
title observed. -/
def c6St : CheckState :=
  { initState with currentType := ("conference"), fields := [("title")] }

/-- Witness for C6: the `conference` alias resolves to `inproceedings`,
whose specs `author`, `booktitle` and `year` are unsatisfied while `title`
is present. -/
theorem required_fields_count_witness :
    inScopeB c6Cfg c6St.currentId = true ∧
      resolveAux c6Cfg.schema c6Cfg.aliasFuel c6St.currentType =
        .found ("inproceedings") [("author"), ("title"), ("booktitle"), ("year")] ∧
      (requiredPhase c6Cfg c6St =
          .ok (requiredLoop ("inproceedings") [("author"), ("title"), ("booktitle"), ("year")]
            c6St.fields { c6St with currentType := ("inproceedings") }) ∧
        countCat .missingField
            (requiredLoop ("inproceedings") [("author"), ("title"), ("booktitle"), ("year")]
              c6St.fields { c6St with currentType := ("inproceedings") }).subproblems =
          countCat .missingField c6St.subproblems +
            ([("author"), ("title"), ("booktitle"), ("year")].filter (fun spec =>
              (pySplit ("/") spec).all (fun f => !(c6St.fields.contains f)))).length) :=
  ⟨by decide, by decide,
    required_fields_count c6Cfg c6St ("inproceedings")
      [("author"), ("title"), ("booktitle"), ("year")] (by decide) (by decide)⟩

/-! ### Claim C8: the year rules -/

/-- The problems the null-value check contributes for one field line. -/
def nullProbs (f v : String) : List Problem :=
  if v = ("null") then [{ cat := .missingField, msg := nullValueMsg f }] else []

/-- The problems the year range/parse check contributes. -/
def yearRangeProbs (nowYear : Int) (v : String) : List Problem :=
  match pyInt v with
  | some n =>
    if !(decide (1900 < n) && decide (n ≤ nowYear + 1)) then
      [{ cat := .flawedName, msg := yearRangeMsg (nowYear + 1) }]
    else []
  | none => [{ cat := .flawedName, msg := yearParseMsg v }]

/-- The problems the year substring-of-bib-key check contributes. -/
def yearKeyProbs (v id : String) : List Problem :=
  if !(strIn v id) then [{ cat := .flawedName, msg := yearKeyMsg }] else []

theorem nullStep_eq (f v : String) (st : CheckState) :
    nullStep f v st =
      { st with
        subproblems := st.subproblems ++ (nullProbs f v),
        counterMissingFields := st.counterMissingFields + (nullProbs f v).length } := by
  unfold nullStep nullProbs addProblem
  split <;> simp

theorem yearRangeCheck_eq (cfg : Config) (v : String) (st : CheckState) :
    yearRangeCheck cfg v st =
      { st with
        subproblems := st.subproblems ++ (yearRangeProbs cfg.nowYear v),
        counterFlawedNames := st.counterFlawedNames + (yearRangeProbs cfg.nowYear v).length } := by
  unfold yearRangeCheck yearRangeProbs addProblem
  cases pyInt v with
  | some n => dsimp only; split <;> simp
  | none => simp

theorem yearKeyCheck_eq (v : String) (st : CheckState) :
    yearKeyCheck v st =
      { st with
        subproblems := st.subproblems ++ (yearKeyProbs v st.currentId),
        counterFlawedNames := st.counterFlawedNames + (yearKeyProbs v st.currentId).length } := by
  unfold yearKeyCheck yearKeyProbs addProblem
  split <;> simp

theorem yearRangeProbs_nil_iff (y : Int) (v : String) :
    yearRangeProbs y v = [] ↔ ∃ n, pyInt v = some n ∧ 1900 < n ∧ n ≤ y + 1 := by
  unfold yearRangeProbs
  cases hp : pyInt v with
  | some n =>
    dsimp only
    split
    · constructor
      · intro h; cases h
      · rintro ⟨n2, hn2, h1, h2⟩
        injection hn2 with hn2
        subst hn2
        simp_all
    · constructor
      · intro _
        refine ⟨n, rfl, ?_, ?_⟩ <;> simp_all
      · intro _; rfl
  | none =>
    constructor
    · intro h; cases h
    · rintro ⟨n2, hn2, _, _⟩; cases hn2

theorem yearRangeProbs_parse_fail (y : Int) (v : String) (h : pyInt v = none) :
    yearRangeProbs y v = [{ cat := .flawedName, msg := yearParseMsg v }] := by
  unfold yearRangeProbs
  rw [h]

theorem yearRangeProbs_flawed (y : Int) (v : String) :
    ∀ p ∈ yearRangeProbs y v, p.cat = .flawedName := by
  unfold yearRangeProbs
  cases pyInt v with
  | some n =>
    dsimp only
    split <;> intro p hp <;> simp_all
  | none => intro p hp; simp_all

theorem yearKeyProbs_nil_iff (v id : String) :
    yearKeyProbs v id = [] ↔ strIn v id = true := by
  unfold yearKeyProbs
  split <;> simp_all

theorem yearKeyProbs_flawed (v id : String) :
    ∀ p ∈ yearKeyProbs v id, p.cat = .flawedName := by
  unfold yearKeyProbs
  split <;> intro p hp <;> simp_all

/-- C8: processing an in-scope content line whose field resolves to `year`
continues normally and appends to the pending problem list exactly the
null-value problems, the range/parse problems and the bib-key substring
problems: a flawed-name range problem appears iff the value does not parse
as an integer in `(1900, current year + 1]` (the unparsable case reporting
the raw value), and, independently, a flawed-name problem appears iff the
value is not a substring of the record identifier. -/
theorem titleStep_skip_year (v : String) (st : CheckState) :
    titleStep ("year") v st = st := by
  unfold titleStep
  rw [if_neg (by decide)]

theorem articleIdStep_skip_year (v : String) (st : CheckState) :
    articleIdStep ("year") v st = st := by
  unfold articleIdStep
  rw [if_neg (by decide)]

theorem urldateStep_skip_year (cfg : Config) (v : String) (st : CheckState) :
    urldateStep cfg ("year") v st = st := by
  unfold urldateStep
  rw [if_neg (by decide)]

theorem pagesStep_skip_year (v : String) (st : CheckState) :
    pagesStep ("year") v st = st := by
  unfold pagesStep
  rw [if_neg (by decide)]

theorem authorStep_skip_year (v : String) (st : CheckState) :
    authorStep ("year") v st = st := by
  unfold authorStep
  rw [if_neg (by decide)]

theorem yearStep_on_year (cfg : Config) (v : String) (st : CheckState) :
    yearStep cfg ("year") v st = yearCheck cfg v st := by
  unfold yearStep
  rw [if_pos rfl]

theorem proceedingsStep_skip_year (st : CheckState) :
    proceedingsStep ("year") st = st := by
  unfold proceedingsStep
  rw [if_neg ?hcon]
  intro h
  exact absurd (of_decide_eq_true ((Bool.and_eq_true _ _).mp h).2) (by decide)

theorem journalStep_skip_year (line v : String) (st : CheckState) :
    journalStep ("year") line v st = st := by
  unfold journalStep
  rw [if_neg ?hcon]
  intro h
  exact absurd (of_decide_eq_true ((Bool.and_eq_true _ _).mp ((Bool.and_eq_true _ _).mp h).1).2)
    (by decide)

theorem doiCond_false_year (v : String) :
    (decide ((("year") : String) = ("doi")) && pyStartsWith ("http") v) = false := by
  rw [show decide ((("year") : String) = ("doi")) = false from by decide, Bool.false_and]

/-- C8: processing an in-scope content line whose field resolves to `year`
continues normally and appends to the pending problem list exactly the
null-value problems, the range/parse problems and the bib-key substring
problems: a flawed-name range problem appears iff the value does not parse
as an integer in `(1900, current year + 1]` (the unparsable case reporting
the raw value), and, independently, a flawed-name problem appears iff the
value is not a substring of the record identifier. -/
theorem year_rules_on_line (cfg : Config) (st : CheckState) (rawLine : String)
    (hat : pyStartsWith ("@") (pyStrip ['\n'] rawLine) = false)
    (heq : strIn ("=") (pyStrip ['\n'] rawLine) = true)
    (hf : fieldOf (pyStrip ['\n'] rawLine) = ("year"))
    (hscope : inScopeB cfg st.currentId = true) :
    ∃ st', processLine cfg st rawLine = .ok st' ∧
      st'.subproblems = st.subproblems
        ++ nullProbs ("year") (valueOf (pyStrip ['\n'] rawLine))
        ++ yearRangeProbs cfg.nowYear (valueOf (pyStrip ['\n'] rawLine))
        ++ yearKeyProbs (valueOf (pyStrip ['\n'] rawLine)) st.currentId ∧
      st'.counterFlawedNames = st.counterFlawedNames
        + (yearRangeProbs cfg.nowYear (valueOf (pyStrip ['\n'] rawLine))).length
        + (yearKeyProbs (valueOf (pyStrip ['\n'] rawLine)) st.currentId).length ∧
      (yearRangeProbs cfg.nowYear (valueOf (pyStrip ['\n'] rawLine)) = [] ↔
        ∃ n, pyInt (valueOf (pyStrip ['\n'] rawLine)) = some n ∧
          1900 < n ∧ n ≤ cfg.nowYear + 1) ∧
      (pyInt (valueOf (pyStrip ['\n'] rawLine)) = none →
        yearRangeProbs cfg.nowYear (valueOf (pyStrip ['\n'] rawLine)) =
          [{ cat := .flawedName, msg := yearParseMsg (valueOf (pyStrip ['\n'] rawLine)) }]) ∧
      (∀ p ∈ yearRangeProbs cfg.nowYear (valueOf (pyStrip ['\n'] rawLine))
          ++ yearKeyProbs (valueOf (pyStrip ['\n'] rawLine)) st.currentId,
        p.cat = .flawedName) ∧
      (yearKeyProbs (valueOf (pyStrip ['\n'] rawLine)) st.currentId = [] ↔
        strIn (valueOf (pyStrip ['\n'] rawLine)) st.currentId = true) := by
  have hne : pyStrip ['\n'] rawLine ≠ ("") := by
    intro h
    rw [h] at heq
    exact absurd heq (by decide)
  unfold processLine
  dsimp only
  rw [hat]
  simp only [Bool.false_eq_true, if_false]
  unfold onContent
  dsimp only
  rw [if_pos hne]
  dsimp only
  rw [if_pos hscope, if_pos heq, hf,
    doiCond_false_year (valueOf (pyStrip ['\n'] rawLine))]
  simp only [Bool.false_eq_true, if_false]
  refine ⟨_, rfl, ?_⟩
  rw [titleStep_skip_year, articleIdStep_skip_year, urldateStep_skip_year,
    pagesStep_skip_year, authorStep_skip_year, yearStep_on_year,
    proceedingsStep_skip_year, journalStep_skip_year]
  rw [yearCheck, yearKeyCheck_eq, yearRangeCheck_eq, nullStep_eq]
  refine ⟨by simp, by simp, yearRangeProbs_nil_iff _ _, yearRangeProbs_parse_fail _ _, ?_,
    yearKeyProbs_nil_iff _ _⟩
  intro p hp
  rcases List.mem_append.mp hp with h | h
  · exact yearRangeProbs_flawed _ _ p h
  · exact yearKeyProbs_flawed _ _ p h

/-- Configuration for the C8 witness. -/
def c8Cfg : Config :=
  { usedCits := [], schema := defaultRequiredFields, nowYear := 2024,
    urldateOk := fun _ => true, aliasFuel := 10 }

/-- A pending record whose identifier does not contain the year literal. -/
def c8St : CheckState :=
  { initState with currentId := ("x1999") }

/-- A concrete year line: in range for 2024, absent from the bib-key. -/
def c8Line : String := ("year = 2005,")

/-- Witness for C8 at a concrete line and state. -/
theorem year_rules_witness :
    pyStartsWith ("@") (pyStrip ['\n'] c8Line) = false ∧
      strIn ("=") (pyStrip ['\n'] c8Line) = true ∧
      fieldOf (pyStrip ['\n'] c8Line) = ("year") ∧
      inScopeB c8Cfg c8St.currentId = true ∧
      (∃ st', processLine c8Cfg c8St c8Line = .ok st' ∧
        st'.subproblems = c8St.subproblems
          ++ nullProbs ("year") (valueOf (pyStrip ['\n'] c8Line))
          ++ yearRangeProbs c8Cfg.nowYear (valueOf (pyStrip ['\n'] c8Line))
          ++ yearKeyProbs (valueOf (pyStrip ['\n'] c8Line)) c8St.currentId ∧
        st'.counterFlawedNames = c8St.counterFlawedNames
          + (yearRangeProbs c8Cfg.nowYear (valueOf (pyStrip ['\n'] c8Line))).length
          + (yearKeyProbs (valueOf (pyStrip ['\n'] c8Line)) c8St.currentId).length ∧
        (yearRangeProbs c8Cfg.nowYear (valueOf (pyStrip ['\n'] c8Line)) = [] ↔
          ∃ n, pyInt (valueOf (pyStrip ['\n'] c8Line)) = some n ∧
            1900 < n ∧ n ≤ c8Cfg.nowYear + 1) ∧
        (pyInt (valueOf (pyStrip ['\n'] c8Line)) = none →
          yearRangeProbs c8Cfg.nowYear (valueOf (pyStrip ['\n'] c8Line)) =
            [{ cat := .flawedName, msg := yearParseMsg (valueOf (pyStrip ['\n'] c8Line)) }]) ∧
        (∀ p ∈ yearRangeProbs c8Cfg.nowYear (valueOf (pyStrip ['\n'] c8Line))
            ++ yearKeyProbs (valueOf (pyStrip ['\n'] c8Line)) c8St.currentId,
          p.cat = .flawedName) ∧
        (yearKeyProbs (valueOf (pyStrip ['\n'] c8Line)) c8St.currentId = [] ↔
          strIn (valueOf (pyStrip ['\n'] c8Line)) c8St.currentId = true)) :=
  ⟨by decide, by decide, by decide, by decide,
    year_rules_on_line c8Cfg c8St c8Line (by decide) (by decide) (by decide) (by decide)⟩

/-! ### Claim C10: case mismatch between usage set and record ids -/

theorem char_toNat_ofNat (n : Nat) (h : Nat.isValidChar n) : (Char.ofNat n).toNat = n := by
  simp [Char.ofNat, Char.toNat, h, Char.ofNatAux, UInt32.toNat, BitVec.toNat_ofNatLt]

theorem pyLowerChar_not_upper (c : Char) :
    (decide (65 ≤ (pyLowerChar c).toNat) && decide ((pyLowerChar c).toNat ≤ 90)) = false := by
  unfold pyLowerChar
  split
  · have hv : Nat.isValidChar (c.toNat + 32) := Or.inl (by omega)
    rw [char_toNat_ofNat (c.toNat + 32) hv]
    simp only [Bool.and_eq_false_iff, decide_eq_false_iff_not]
    omega
  · simp only [Bool.and_eq_false_iff, decide_eq_false_iff_not]
    omega

theorem mem_pyStripL (chars l : List Char) (c : Char) (h : c ∈ pyStripL chars l) : c ∈ l := by
  unfold pyStripL pyLstripL pyRstripL at h
  rw [List.mem_reverse] at h
  have h2 := (List.dropWhile_sublist _).mem h
  rw [List.mem_reverse] at h2
  exact (List.dropWhile_sublist _).mem h2

/-- Identifiers produced by line 197 (`.lower()` then `.strip()`) never
contain an ASCII uppercase letter. -/
theorem hasUpperStr_strip_lower (s : String) :
    hasUpperStr (pyStripWs (pyLower s)) = false := by
  unfold hasUpperStr pyStripWs
  rw [List.any_eq_false]
  intro c hc
  have hc2 : c ∈ (pyLower s).toList :=
    mem_pyStripL wsChars (pyLower s).toList c hc
  rw [show (pyLower s).toList = s.toList.map pyLowerChar from rfl] at hc2
  obtain ⟨c2, _, rfl⟩ := List.mem_map.mp hc2
  simpa using pyLowerChar_not_upper c2

/-- The gate of line 142 is closed for every lowercase id when the usage
set is non-empty and each of its members has an uppercase letter. -/
theorem inScopeB_false_of_upper (cfg : Config) (id : String)
    (hne : cfg.usedCits ≠ [])
    (hup : ∀ u ∈ cfg.usedCits, hasUpperStr u = true)
    (hid : hasUpperStr id = false) : inScopeB cfg id = false := by
  unfold inScopeB
  have h1 : cfg.usedCits.contains id = false := by
    have : ¬ id ∈ cfg.usedCits := by
      intro hmem
      rw [hup id hmem] at hid
      cases hid
    simpa using this
  have h2 : cfg.usedCits.isEmpty = false := List.isEmpty_eq_false.mpr hne
  rw [h1, h2]
  rfl

/-- The out-of-scope state invariant of claim C10: nothing is emitted, the
counters fed only by in-scope checks stay zero, no field is ever recorded,
and the current identifier stays free of ASCII uppercase letters. -/
def Quiet (st : CheckState) : Prop :=
  st.problems = [] ∧ st.counterMissingFields = 0 ∧ st.counterWrongTypes = 0 ∧
    st.fields = [] ∧ hasUpperStr st.currentId = false

theorem urlPairStep_id (st : CheckState) (h : st.fields = []) : urlPairStep st = st := by
  unfold urlPairStep
  rw [h]
  rfl

theorem urlDoiStep_id (st : CheckState) (h : st.fields = []) : urlDoiStep st = st := by
  unfold urlDoiStep
  rw [h]
  rfl

theorem emitStep_id (cfg : Config) (st : CheckState)
    (h : inScopeB cfg st.currentId = false) : emitStep cfg st = st := by
  unfold emitStep
  rw [h]
  rfl

/-- Quietness of the record-start tail of a boundary line: the non-unique-id
and missing-bibkey problems may fire, but they emit no entry, touch neither
the missing-fields nor the wrong-types counter, record no field, and the
freshly lowered identifier has no ASCII uppercase letter. -/
theorem quiet_boundary_tail (line seg : String) (st : CheckState)
    (hp : st.problems = []) (h1 : st.counterMissingFields = 0)
    (h2 : st.counterWrongTypes = 0) (hf : st.fields = []) :
    Quiet (bibkeyStep (newTypeStep line
      (newIdStep (pyStripWs (pyLower (pyRstrip [',', '\n'] seg))) st))) := by
  unfold bibkeyStep newTypeStep newIdStep
  split <;> split <;>
    refine ⟨?_, ?_, ?_, ?_, ?_⟩ <;>
      simp [addProblem, hp, h1, h2, hf, hasUpperStr_strip_lower]

theorem quiet_onBoundary (cfg : Config) (st st' : CheckState) (line : String)
    (hne : cfg.usedCits ≠ [])
    (hup : ∀ u ∈ cfg.usedCits, hasUpperStr u = true)
    (hq : Quiet st) (hok : onBoundary cfg st line = .ok st') : Quiet st' := by
  obtain ⟨hp, h1, h2, hf, hid⟩ := hq
  have hsc : inScopeB cfg st.currentId = false := inScopeB_false_of_upper cfg _ hne hup hid
  have hreq : requiredPhase cfg st = .ok { st with subproblems := [] } := by
    unfold requiredPhase
    rw [hsc]
    simp
  unfold onBoundary at hok
  rw [hreq] at hok
  dsimp only at hok
  rw [urlPairStep_id _ (show ({ st with subproblems := [] } : CheckState).fields = [] from hf),
    urlDoiStep_id _ (show ({ st with subproblems := [] } : CheckState).fields = [] from hf),
    emitStep_id cfg _
      (show inScopeB cfg ({ st with subproblems := [] } : CheckState).currentId = false from hsc)]
    at hok
  cases hsp : (pySplit ("\x7b") line).drop 1 with
  | nil => rw [hsp] at hok; cases hok
  | cons seg rest =>
    rw [hsp] at hok
    dsimp only at hok
    cases hok
    exact quiet_boundary_tail line seg _ (by exact hp) (by exact h1) (by exact h2) rfl

theorem quiet_onContent (cfg : Config) (st st' : CheckState) (line : String)
    (hne : cfg.usedCits ≠ [])
    (hup : ∀ u ∈ cfg.usedCits, hasUpperStr u = true)
    (hq : Quiet st) (hok : onContent cfg st line = .ok st') : Quiet st' := by
  obtain ⟨hp, h1, h2, hf, hid⟩ := hq
  have hsc : inScopeB cfg st.currentId = false := inScopeB_false_of_upper cfg _ hne hup hid
  unfold onContent at hok
  dsimp only at hok
  by_cases hl : line = ("")
  · subst hl
    rw [if_neg (fun hcon : ("" : String) ≠ ("") => hcon rfl)] at hok
    rw [hsc] at hok
    simp only [Bool.false_eq_true, if_false] at hok
    cases hok
    exact ⟨hp, h1, h2, hf, hid⟩
  · rw [if_pos hl] at hok
    dsimp only at hok
    rw [hsc] at hok
    simp only [Bool.false_eq_true, if_false] at hok
    cases hok
    exact ⟨hp, h1, h2, hf, hid⟩

theorem quiet_processLine (cfg : Config) (st st' : CheckState) (rawLine : String)
    (hne : cfg.usedCits ≠ [])
    (hup : ∀ u ∈ cfg.usedCits, hasUpperStr u = true)
    (hq : Quiet st) (hok : processLine cfg st rawLine = .ok st') : Quiet st' := by
  obtain ⟨hp, h1, h2, hf, hid⟩ := hq
  unfold processLine at hok
  dsimp only at hok
  have hq1 : Quiet { st with lineNo := st.lineNo + 1 } := ⟨hp, h1, h2, hf, hid⟩
  by_cases hat : pyStartsWith ("@") (pyStrip ['\n'] rawLine) = true
  · rw [if_pos hat] at hok
    exact quiet_onBoundary cfg _ _ _ hne hup hq1 hok
  · rw [if_neg hat] at hok
    exact quiet_onContent cfg _ _ _ hne hup hq1 hok

theorem quiet_runLines (cfg : Config)
    (hne : cfg.usedCits ≠ [])
    (hup : ∀ u ∈ cfg.usedCits, hasUpperStr u = true) :
    ∀ (lines : List String) (st st' : CheckState), Quiet st →
      runLines cfg st lines = .ok st' → Quiet st' := by
  intro lines
  induction lines with
  | nil =>
    intro st st' hq hok
    cases hok
    exact hq
  | cons l ls ih =>
    intro st st' hq hok
    unfold runLines at hok
    cases hpl : processLine cfg st l with
    | ok st2 =>
      rw [hpl] at hok
      exact ih st2 st' (quiet_processLine cfg st st2 l hne hup hq hpl) hok
    | error e => rw [hpl] at hok; cases hok

/-- C10: since record identifiers are lowercased at parse time while
usage-set identifiers are kept verbatim, a usage set whose members all
contain an ASCII uppercase letter matches no record: every record is out of
scope, so no entry is emitted, the counters fed only by record-level and
field-level checks stay zero, and no field is ever recorded. -/
theorem uppercase_usage_set_disables_checks (cfg : Config) (lines : List String)
    (st : CheckState)
    (hne : cfg.usedCits ≠ [])
    (hup : ∀ u ∈ cfg.usedCits, hasUpperStr u = true)
    (hrun : run cfg lines = .ok st) :
    st.problems = [] ∧ st.counterMissingFields = 0 ∧ st.counterWrongTypes = 0 ∧
      st.fields = [] := by
  have hq := quiet_runLines cfg hne hup lines initState st ⟨rfl, rfl, rfl, rfl, rfl⟩ hrun
  exact ⟨hq.1, hq.2.1, hq.2.2.1, hq.2.2.2.1⟩

/-- Configuration whose usage set holds the verbatim (mixed-case) aux
identifier. -/
def c10Cfg : Config :=
  { usedCits := [("Smith2020")], schema := defaultRequiredFields, nowYear := 2024,
    urldateOk := fun _ => true, aliasFuel := 10 }

/-- A record whose lowercased identifier would match the aux identifier up
to case. -/
def c10Lines : List String :=
  [("@article\x7bSmith2020,"), ("author = \x7bSmith, John\x7d,"), ("year = 2020,")]

/-- Final state of the C10 witness run. -/
def c10State : CheckState :=
  (okState (run c10Cfg c10Lines)).getD initState

/-- Witness for C10: the aux listing yields `Smith2020` verbatim, the
record id is lowercased to `smith2020`, and the run checks nothing. -/
theorem uppercase_usage_set_witness :
    buildUsedCits [] [("\\citation\x7bSmith2020\x7d")] = .ok [("Smith2020")] ∧
      c10Cfg.usedCits ≠ [] ∧ (∀ u ∈ c10Cfg.usedCits, hasUpperStr u = true) ∧
      (c10State.problems = [] ∧ c10State.counterMissingFields = 0 ∧
        c10State.counterWrongTypes = 0 ∧ c10State.fields = []) :=
  ⟨rfl, by decide, by decide,
    uppercase_usage_set_disables_checks c10Cfg c10Lines c10State (by decide) (by decide) rfl⟩

/-! ### Claim C7: report ordering -/

/-- C7 (amended): the report is ordered deterministically, but the sort key
is the whole rendered entry string (whose prefix embeds the identifier),
not the identifier alone: the output is a permutation of the rendered
entries that is sorted under lexicographic code-point comparison of the
full strings. -/
theorem report_sorted_by_rendered_string (st : CheckState) :
    (sortedReport st).Perm (renderedProblems st) ∧
      (sortedReport st).Pairwise strLe :=
  ⟨List.perm_insertionSort strLe (renderedProblems st),
    List.sorted_insertionSort strLe (renderedProblems st)⟩

/-- Configuration for the C7 counterexample. -/
def c7Cfg : Config :=
  { usedCits := [], schema := defaultRequiredFields, nowYear := 2024,
    urldateOk := fun _ => true, aliasFuel := 10 }

/-- Three boundary lines producing entries with identifiers `a!` and `a`
(plus the phantom empty-id entry): the rendered string of `a!` sorts before
the one of `a` because `!` precedes the quote closing the `id` attribute,
while a sort keyed on the identifier alone puts `a` first. -/
def c7Lines : List String :=
  [("@misc\x7ba!,"), ("@misc\x7ba,"), ("@misc\x7bzz,")]

set_option maxRecDepth 4000 in
/-- C7 (counterexample): on `c7Lines` the report order produced by
`problems.sort()` differs from a stable sort keyed on the identifier
alone. -/
theorem report_order_differs_from_id_sort :
    (okState (run c7Cfg c7Lines)).map
        (fun st => decide (sortedReport st = specSortedById st.problems)) =
      some false := by decide

/-! ### Claim C9: surname normalisation -/

/-- C9: the normalisation applies, in order, the three literal umlaut
digraph substitutions, `unidecode` transliteration, lowercasing, and
removal of spaces, periods and apostrophes; `Müller` normalizes to
`mueller` and `Ångström` to the ASCII-only lowercase `angstroem`. -/
theorem normalizeSurname_spec :
    (∀ s, normalizeSurname s =
      removeChar ('.') (removeChar (Char.ofNat 39) (removeChar (' ')
        (pyLower (unidecodeStr (substUmlauts s)))))) ∧
    normalizeSurname ("Müller") = ("mueller") ∧
    normalizeSurname ("Ångström") = ("angstroem") ∧
    ((normalizeSurname ("Ångström")).toList.all
      (fun c => decide (c.toNat < 128) &&
        !(decide (65 ≤ c.toNat) && decide (c.toNat ≤ 90)))) = true :=
  ⟨fun _ => rfl, by decide, by decide, by decide⟩

end BibtexCheck
